import Mathlib

/-!
Shallow embedding of `price-word.py`: a polling loop that compares the last
trade price from one exchange (Wallex, authenticated, per-symbol) with the
bulk ticker price of another (CoinCatch), and emits a notification whenever
the relative deviation reaches a configured threshold.

Prices are modelled as rationals; HTTP transport and JSON decoding outcomes
are modelled by explicit result types; side effects (network calls, console
prints, log lines, notification sends) are modelled as an explicit event
trace returned by each function.
-/

namespace PriceWord

/-- Outcome of an HTTP request followed by JSON decoding: either the decoded
payload, or a transport/decoding failure (any raised exception). -/
inductive FetchResult (α : Type) where
  | ok (data : α)
  | failure
deriving DecidableEq

/-- The `close` field of a CoinCatch ticker as it arrives in JSON: either a
value that Python's `float()` accepts (a number or numeric string), carried
as the rational it denotes, or a value `float()` rejects. -/
inductive CloseField where
  | num (q : ℚ)
  | nonNumeric
deriving DecidableEq

/-- One entry of the CoinCatch `data` array: `symbol` and `close` fields,
each possibly absent (`ticker.get(...)` returns `None` when missing). -/
structure Ticker where
  symbol : Option String
  close : Option CloseField
deriving DecidableEq

/-- Python's `float(x)` applied to an optional JSON field: returns the number
when the field holds a numeric value, and raises (modelled as `none`) when
the field is missing or non-numeric. -/
def pyFloat : Option CloseField → Option ℚ
  | some (CloseField.num q) => some q
  | _ => none

/-- `ticker.get('symbol', '').replace('-', '')` from line 72: default the
missing symbol to the empty string and strip every dash. -/
def normalizeSymbol (s : Option String) : String :=
  ((s.getD "").toList.filter (fun c => c ≠ '-')).asString

/-- The dict comprehension of line 72, evaluated entry by entry in order:
`float` is applied to every entry's `close`, so a single missing or
non-numeric `close` raises and aborts the whole comprehension (`none`).
Only when every entry parses does it yield the full list of pairs. -/
def parseAllTickers : List Ticker → Option (List (String × ℚ))
  | [] => some []
  | t :: ts =>
    match pyFloat t.close, parseAllTickers ts with
    | some q, some rest => some ((normalizeSymbol t.symbol, q) :: rest)
    | _, _ => none

/-- Python dict insertion: overwrite an existing binding in place, otherwise
append the new binding at the end. -/
def dictInsert (d : List (String × ℚ)) (k : String) (v : ℚ) : List (String × ℚ) :=
  if d.any (fun p => p.1 = k) then d.map (fun p => if p.1 = k then (k, v) else p)
  else d ++ [(k, v)]

/-- Build a Python dict from the pairs a dict comprehension produces, later
duplicates overwriting earlier ones. -/
def buildDict (l : List (String × ℚ)) : List (String × ℚ) :=
  l.foldl (fun d kv => dictInsert d kv.1 kv.2) []

/-- The observable side effects of the program, in order of occurrence. -/
inductive Event where
  | logInfo
  | logWarning
  | logError
  | detailCall (symbol : String)
  | consolePrint (symbol : String)
  | telegramSend (text : String)
deriving DecidableEq

/-- `get_coincatch_prices` (lines 65-77): on transport failure or any raised
parse error, logs an error and returns the empty dict; otherwise logs the
ticker count and keeps only entries with a truthy key (nonempty symbol) and
truthy value (nonzero price), per `if k and v` on line 74. -/
def get_coincatch_prices (resp : FetchResult (List Ticker)) :
    List Event × List (String × ℚ) :=
  match resp with
  | FetchResult.failure => ([Event.logError], [])
  | FetchResult.ok data =>
    match parseAllTickers data with
    | none => ([Event.logError], [])
    | some prices =>
      ([Event.logInfo],
        (buildDict prices).filter (fun kv => decide (kv.1 ≠ "") && decide (kv.2 ≠ 0)))

/-- Market metadata of one Wallex symbol, as used by the program: the
`quoteAsset` field (possibly absent, via `d.get('quoteAsset')`) and the
`baseAsset` field. -/
structure MarketInfo where
  quoteAsset : Option String
  baseAsset : String
deriving DecidableEq

/-- `get_wallex_usdt_markets` (lines 29-39): on any failure, logs an error
and returns the empty dict; otherwise keeps exactly the symbols whose
`quoteAsset` equals `'USDT'`. -/
def get_wallex_usdt_markets (resp : FetchResult (List (String × MarketInfo))) :
    List Event × List (String × MarketInfo) :=
  match resp with
  | FetchResult.failure => ([Event.logError], [])
  | FetchResult.ok data =>
    ([], data.filter (fun sd => decide (sd.2.quoteAsset = some "USDT")))

/-- The API-key validity test used at lines 45 and 110: the key is unusable
when absent, empty (falsy), or equal to the placeholder. -/
def api_key_invalid (key : Option String) : Bool :=
  match key with
  | none => true
  | some k => k == "" || k == "YOUR_API_KEY_HERE"

/-- Outcome of one request to the Wallex trades endpoint: transport/HTTP
failure, or the decoded `latestTrades` list, each trade carrying its `price`
field as seen by `float()`. -/
inductive DetailResp where
  | fail
  | trades (l : List CloseField)

/-- `get_wallex_last_trade_price` (lines 41-63): with an invalid key it
returns `None` without any network call; otherwise it issues the request
(`detailCall`), returns `None` with a warning on failure or a bad price
field, `None` on an empty trade list, and the first trade's price
otherwise. -/
def get_wallex_last_trade_price (key : Option String) (net : String → DetailResp)
    (symbol : String) : List Event × Option ℚ :=
  if api_key_invalid key then ([], none)
  else
    match net symbol with
    | DetailResp.fail => ([Event.detailCall symbol, Event.logWarning], none)
    | DetailResp.trades [] => ([Event.detailCall symbol], none)
    | DetailResp.trades (p :: _) =>
      match pyFloat (some p) with
      | some q => ([Event.detailCall symbol], some q)
      | none => ([Event.detailCall symbol, Event.logWarning], none)

/-- Line 119: `((wallex_price - coincatch_price) / coincatch_price) * 100`. -/
def percentage_diff (wallex_price coincatch_price : ℚ) : ℚ :=
  (wallex_price - coincatch_price) / coincatch_price * 100

/-- BUY/SELL classification of a signal (lines 138-143). -/
inductive Action where
  | BUY
  | SELL
deriving DecidableEq

/-- What the evaluation of one symbol produces: whether the comparison was
printed to the console, and the emitted signal (action and magnitude), if
any. -/
structure SymbolReport where
  printed : Bool
  signal : Option (Action × ℚ)
deriving DecidableEq

/-- Lines 118-165 for one symbol: proceed only when both prices are truthy
(present and nonzero); compute the percentage difference; when its absolute
value reaches the threshold (inclusive `>=`, line 128) emit a signal, BUY
with magnitude `abs(diff)` when the difference is negative and SELL with
magnitude `diff` otherwise; below the threshold print the comparison with no
signal. -/
def evaluate_symbol (threshold : ℚ) (wallex_price coincatch_price : Option ℚ) :
    SymbolReport :=
  match wallex_price, coincatch_price with
  | some w, some c =>
    if w ≠ 0 ∧ c ≠ 0 then
      let diff := percentage_diff w c
      if |diff| ≥ threshold then
        if diff < 0 then ⟨true, some (Action.BUY, |diff|)⟩
        else ⟨true, some (Action.SELL, diff)⟩
      else ⟨true, none⟩
    else ⟨false, none⟩
  | _, _ => ⟨false, none⟩

/-- `coincatch_prices.get(symbol)` (line 116). -/
def lookupDict (d : List (String × ℚ)) (k : String) : Option ℚ :=
  (d.find? (fun p => p.1 == k)).map (fun p => p.2)

/-- The events one loop iteration (lines 114-165) produces for one symbol:
the detail fetch, then - when both prices are truthy - the console print and,
above threshold, the notification send. -/
def analyze_symbol (threshold : ℚ) (key : Option String)
    (table : List (String × ℚ)) (net : String → DetailResp) (symbol : String) :
    List Event :=
  let fetched := get_wallex_last_trade_price key net symbol
  let r := evaluate_symbol threshold fetched.2 (lookupDict table symbol)
  fetched.1 ++
    (if r.printed then
      Event.consolePrint symbol ::
        (match r.signal with
         | some _ => [Event.telegramSend symbol]
         | none => [])
    else [])

/-- Configuration fields the analysis cycle reads: the Wallex API key
(possibly absent) and the signal threshold. -/
structure Config where
  api_key : Option String
  threshold : ℚ
deriving DecidableEq

/-- `analyze_prices` (lines 95-167): fetch CoinCatch prices then Wallex
markets; if either table is empty, log a warning and end the cycle
(line 102); log the comparison banner; if the API key is missing, empty or
the placeholder, log an error and end the cycle before any per-symbol work
(lines 110-112); otherwise process every market in order. -/
def analyze_prices (cfg : Config) (ccResp : FetchResult (List Ticker))
    (wxResp : FetchResult (List (String × MarketInfo)))
    (net : String → DetailResp) : List Event :=
  let cc := get_coincatch_prices ccResp
  let wx := get_wallex_usdt_markets wxResp
  let pre := cc.1 ++ wx.1
  if cc.2.isEmpty || wx.2.isEmpty then pre ++ [Event.logWarning]
  else if api_key_invalid cfg.api_key then pre ++ [Event.logInfo, Event.logError]
  else
    pre ++ [Event.logInfo] ++
      wx.2.flatMap (fun sd => analyze_symbol cfg.threshold cfg.api_key cc.2 net sd.1)

/-- Recognizer for per-symbol detail-price network calls in a trace. -/
def isDetailCall : Event → Bool
  | Event.detailCall _ => true
  | _ => false

/-- The reserved MarkdownV2 characters of line 147. -/
def escape_chars : String := "_*[]()~`>#+-=|\x7b\x7d.!"

/-- `escape_markdown` (lines 145-148): prefix each reserved character with a
backslash, leave every other character unchanged. -/
def escape_markdown (text : String) : String :=
  String.mk (text.toList.flatMap
    (fun c => if c ∈ escape_chars.toList then ['\\', c] else [c]))

/-- Outcome of one attempted Telegram delivery: the send succeeds, or raises
during `Bot(...)`/`send_message`. -/
inductive SendOutcome where
  | ok
  | raises
deriving DecidableEq

/-- The Telegram fields read from the configuration (lines 81-83). -/
structure TelegramConfig where
  bot_token : String
  group_chat_id : String
  message_thread_id : String
deriving DecidableEq

/-- `send_telegram_message` (lines 79-92): with a falsy (empty) token,
return immediately with no attempt and no log; otherwise attempt delivery,
and log an error when it raises. -/
def send_telegram_message (cfg : TelegramConfig) (message_text : String)
    (outcome : SendOutcome) : List Event :=
  if cfg.bot_token = "" then []
  else
    match outcome with
    | SendOutcome.ok => [Event.telegramSend message_text]
    | SendOutcome.raises => [Event.logError]

/-- Unfolding of `evaluate_symbol` when both prices are truthy. -/
lemma evaluate_symbol_eq (t w c : ℚ) (hw : w ≠ 0) (hc : c ≠ 0) :
    evaluate_symbol t (some w) (some c) =
      if t ≤ |percentage_diff w c| then
        (if percentage_diff w c < 0 then ⟨true, some (Action.BUY, |percentage_diff w c|)⟩
         else ⟨true, some (Action.SELL, percentage_diff w c)⟩)
      else ⟨true, none⟩ := by
  simp [evaluate_symbol, hw, hc]

/-- With a positive reference price, the percentage difference is negative
exactly when the Wallex price is below the CoinCatch price. -/
lemma percentage_diff_neg_iff (w c : ℚ) (hc : 0 < c) :
    percentage_diff w c < 0 ↔ w < c := by
  unfold percentage_diff
  rw [div_mul_eq_mul_div, div_neg_iff]
  constructor
  · rintro (⟨h1, h2⟩ | ⟨h1, h2⟩)
    · exact absurd hc (not_lt.mpr h2.le)
    · nlinarith
  · intro h
    right
    exact ⟨by nlinarith, hc⟩

/-- C1: for available prices with a positive reference price, the evaluator
computes `diff = (priceA - priceB) / priceB * 100`, `diff < 0` holds exactly
when `priceA < priceB`, and any emitted signal is classified BUY exactly when
`diff < 0`, with magnitude `abs diff` for BUY and `diff` for SELL. -/
theorem c1_diff_and_classification (t w c : ℚ) (hc : 0 < c) (hw : w ≠ 0) :
    (percentage_diff w c < 0 ↔ w < c) ∧
    (∀ a m, (evaluate_symbol t (some w) (some c)).signal = some (a, m) →
      ((a = Action.BUY ↔ percentage_diff w c < 0) ∧
       (a = Action.BUY → m = |percentage_diff w c|) ∧
       (a = Action.SELL → m = percentage_diff w c))) := by
  refine ⟨percentage_diff_neg_iff w c hc, ?_⟩
  intro a m hsig
  rw [evaluate_symbol_eq t w c hw (ne_of_gt hc)] at hsig
  split_ifs at hsig with h1 h2
  · obtain ⟨rfl, rfl⟩ : Action.BUY = a ∧ |percentage_diff w c| = m := by
      simpa using hsig
    exact ⟨by simp [h2], fun _ => rfl, by simp⟩
  · obtain ⟨rfl, rfl⟩ : Action.SELL = a ∧ percentage_diff w c = m := by
      simpa using hsig
    exact ⟨by simp [h2], by simp, fun _ => rfl⟩

/-- Witness for C1 at the spec's example scenario: Wallex 49000 against
CoinCatch 50000 with threshold 1.5 yields a BUY signal of magnitude 2. -/
theorem c1_witness :
    (evaluate_symbol (3/2) (some 49000) (some 50000)).signal = some (Action.BUY, 2) ∧
    (Action.BUY = Action.BUY ↔ percentage_diff 49000 50000 < 0) := by
  have h := c1_diff_and_classification (3/2) 49000 50000 (by norm_num) (by norm_num)
  have hs : (evaluate_symbol (3/2) (some 49000) (some 50000)).signal
      = some (Action.BUY, 2) := by
    norm_num [evaluate_symbol, percentage_diff]
  exact ⟨hs, (h.2 Action.BUY 2 hs).1⟩

/-- C3: with both prices available (truthy), a signal is emitted exactly when
`abs diff` is at least the threshold (inclusive comparison), and the
comparison is printed to the console in either case. -/
theorem c3_threshold_inclusive (t w c : ℚ) (hw : w ≠ 0) (hc : c ≠ 0) :
    ((evaluate_symbol t (some w) (some c)).signal.isSome = true ↔
      t ≤ |percentage_diff w c|) ∧
    (evaluate_symbol t (some w) (some c)).printed = true := by
  rw [evaluate_symbol_eq t w c hw hc]
  split_ifs with h1 h2 <;> simp [h1]

/-- Witness for C3 at the boundary: `abs diff = 2` with threshold exactly 2
still emits a signal. -/
theorem c3_witness :
    (evaluate_symbol 2 (some 49000) (some 50000)).signal.isSome = true ∧
    (2:ℚ) ≤ |percentage_diff 49000 50000| ∧
    (evaluate_symbol 2 (some 49000) (some 50000)).printed = true := by
  have h := c3_threshold_inclusive 2 49000 50000 (by norm_num) (by norm_num)
  have hpd : percentage_diff 49000 50000 = -2 := by norm_num [percentage_diff]
  have hb : (2:ℚ) ≤ |percentage_diff 49000 50000| := by
    rw [hpd]
    norm_num
  exact ⟨h.1.mpr hb, hb, h.2⟩

/-- C4 (amended): a symbol is skipped, with nothing printed and no signal,
whenever either price is absent or equal to zero - so the percentage
difference is never computed with a zero denominator; however, only zero is
treated as unavailable: a negative price is not skipped. -/
theorem c4_zero_guard (t : ℚ) :
    (∀ wp cp : Option ℚ, (wp = none ∨ cp = none ∨ wp = some 0 ∨ cp = some 0) →
      evaluate_symbol t wp cp = ⟨false, none⟩) ∧
    (∀ w c : ℚ, evaluate_symbol t (some w) (some c) ≠ ⟨false, none⟩ → c ≠ 0) := by
  constructor
  · rintro wp cp (rfl | rfl | rfl | rfl)
    · cases cp <;> simp [evaluate_symbol]
    · cases wp <;> simp [evaluate_symbol]
    · cases cp <;> simp [evaluate_symbol]
    · cases wp <;> simp [evaluate_symbol]
  · intro w c h hc0
    exact h (by simp [evaluate_symbol, hc0])

/-- Witness for C4: a zero CoinCatch price makes the symbol skip. -/
theorem c4_witness :
    evaluate_symbol 5 (some 7) (some 0) = ⟨false, none⟩ :=
  (c4_zero_guard 5).1 (some 7) (some 0) (Or.inr (Or.inr (Or.inr rfl)))

/-- Counterexample to C4 as stated: a negative (hence non-positive) Wallex
price of -1 against CoinCatch price 2 is not skipped - the code emits a BUY
signal of magnitude 150. -/
theorem c4_counterexample :
    (evaluate_symbol 1 (some (-1)) (some 2)).signal = some (Action.BUY, 150) ∧
    ¬(0 < (-1:ℚ)) := by
  constructor
  · norm_num [evaluate_symbol, percentage_diff]
  · norm_num

/-- A single entry whose `close` fails `float()` makes the whole dict
comprehension raise. -/
lemma parseAllTickers_eq_none (data : List Ticker) (t : Ticker) (ht : t ∈ data)
    (hbad : pyFloat t.close = none) : parseAllTickers data = none := by
  induction data with
  | nil => cases ht
  | cons hd tl ih =>
    rcases List.mem_cons.mp ht with rfl | ht2
    · simp [parseAllTickers, hbad]
    · cases hpf : pyFloat hd.close <;> simp [parseAllTickers, hpf, ih ht2]

/-- When every entry's `close` parses, the dict comprehension succeeds. -/
lemma parseAllTickers_isSome (data : List Ticker)
    (h : ∀ t ∈ data, (pyFloat t.close).isSome = true) :
    (parseAllTickers data).isSome = true := by
  induction data with
  | nil => simp [parseAllTickers]
  | cons hd tl ih =>
    obtain ⟨q, hq⟩ := Option.isSome_iff_exists.mp (h hd (by simp))
    obtain ⟨l, hl⟩ := Option.isSome_iff_exists.mp (ih (fun t ht => h t (by simp [ht])))
    simp [parseAllTickers, hq, hl]

/-- C2 (amended): the bulk fetch is all-or-nothing, not partial-success: if
any ticker entry's price is missing or non-numeric the whole fetch returns
the empty table, dropping even the entries that parsed; only when every entry
parses is the (truthiness-filtered) table returned. -/
theorem c2_all_or_nothing (data : List Ticker) :
    ((∃ t ∈ data, pyFloat t.close = none) →
      (get_coincatch_prices (FetchResult.ok data)).2 = []) ∧
    ((∀ t ∈ data, (pyFloat t.close).isSome = true) →
      ∃ l, parseAllTickers data = some l ∧
        (get_coincatch_prices (FetchResult.ok data)).2 =
          (buildDict l).filter (fun kv => decide (kv.1 ≠ "") && decide (kv.2 ≠ 0))) := by
  constructor
  · rintro ⟨t, ht, hbad⟩
    simp [get_coincatch_prices, parseAllTickers_eq_none data t ht hbad]
  · intro h
    obtain ⟨l, hl⟩ := Option.isSome_iff_exists.mp (parseAllTickers_isSome data h)
    exact ⟨l, hl, by simp [get_coincatch_prices, hl]⟩

/-- Witness for C2: one bad entry empties the table even though the other
entry parses. -/
theorem c2_witness :
    (get_coincatch_prices (FetchResult.ok
      [⟨some "A", none⟩, ⟨some "B", some (CloseField.num 7)⟩])).2 = [] :=
  (c2_all_or_nothing _).1 ⟨⟨some "A", none⟩, List.Mem.head _, rfl⟩

/-- Counterexample to C2 as stated: the `BTC-USDT` entry parses successfully
(alone it yields the table `[("BTCUSDT", 50000)]`), yet when the `ETHUSDT`
entry's price is missing the returned table is empty - the successfully
parsed entry is not retained, contradicting the partial-success policy. -/
theorem c2_counterexample :
    (get_coincatch_prices (FetchResult.ok
      [⟨some "BTC-USDT", some (CloseField.num 50000)⟩, ⟨some "ETHUSDT", none⟩])).2 = [] ∧
    (get_coincatch_prices (FetchResult.ok
      [⟨some "BTC-USDT", some (CloseField.num 50000)⟩])).2 = [("BTCUSDT", 50000)] := by
  constructor
  · simp [get_coincatch_prices, parseAllTickers, pyFloat]
  · norm_num [get_coincatch_prices, parseAllTickers, pyFloat, normalizeSymbol,
      buildDict, dictInsert]
    decide

/-- C6 (amended): every entry retained in the bulk price table has a nonzero
price and a nonempty symbol; entries with price 0 or missing price never
appear - but the invariant is nonzero, not positive. -/
theorem c6_nonzero_invariant (resp : FetchResult (List Ticker)) (kv : String × ℚ)
    (h : kv ∈ (get_coincatch_prices resp).2) : kv.1 ≠ "" ∧ kv.2 ≠ 0 := by
  cases resp with
  | failure => simp [get_coincatch_prices] at h
  | ok data =>
    cases hp : parseAllTickers data with
    | none => simp [get_coincatch_prices, hp] at h
    | some l =>
      simp [get_coincatch_prices, hp, List.mem_filter] at h
      exact ⟨h.2.1, h.2.2⟩

/-- Witness for C6: the retained `BTCUSDT` entry has a nonzero price and a
nonempty symbol. -/
theorem c6_witness : ("BTCUSDT" : String) ≠ "" ∧ (50000:ℚ) ≠ 0 := by
  have h := c6_nonzero_invariant
    (FetchResult.ok [⟨some "BTC-USDT", some (CloseField.num 50000)⟩]) ("BTCUSDT", 50000)
    (by norm_num [get_coincatch_prices, parseAllTickers, pyFloat, normalizeSymbol,
          buildDict, dictInsert]
        decide)
  exact h

/-- Counterexample to C6 as stated: a ticker with negative price -5 is
retained in the returned table, so a non-positive price does appear. -/
theorem c6_counterexample :
    ("XUSDT", (-5:ℚ)) ∈ (get_coincatch_prices (FetchResult.ok
      [⟨some "X-USDT", some (CloseField.num (-5))⟩])).2 ∧ ¬(0 < (-5:ℚ)) := by
  constructor
  · norm_num [get_coincatch_prices, parseAllTickers, pyFloat, normalizeSymbol,
      buildDict, dictInsert]
    decide
  · norm_num

/-- C7: the market snapshot contains exactly the listing entries whose
`quoteAsset` equals the pivot currency `USDT`; all others are excluded. -/
theorem c7_market_filter (data : List (String × MarketInfo)) (sd : String × MarketInfo) :
    sd ∈ (get_wallex_usdt_markets (FetchResult.ok data)).2 ↔
      sd ∈ data ∧ sd.2.quoteAsset = some "USDT" := by
  simp [get_wallex_usdt_markets, List.mem_filter]

/-- The bulk CoinCatch fetch emits only log events, never a per-symbol
detail call. -/
lemma cc_events_no_detail (resp : FetchResult (List Ticker)) :
    ∀ e ∈ (get_coincatch_prices resp).1, isDetailCall e = false := by
  cases resp with
  | failure => simp [get_coincatch_prices, isDetailCall]
  | ok data =>
    cases hp : parseAllTickers data <;>
      simp [get_coincatch_prices, hp, isDetailCall]

/-- The Wallex market-listing fetch emits only log events, never a
per-symbol detail call. -/
lemma wx_events_no_detail (resp : FetchResult (List (String × MarketInfo))) :
    ∀ e ∈ (get_wallex_usdt_markets resp).1, isDetailCall e = false := by
  cases resp <;> simp [get_wallex_usdt_markets, isDetailCall]

/-- C5: when the API key is missing, empty, or the placeholder, the cycle
makes zero per-symbol detail-price network calls; the per-symbol fetch alone
would also make none; and when both tables are nonempty the cycle ends right
after logging an error. -/
theorem c5_no_detail_calls (cfg : Config) (cc : FetchResult (List Ticker))
    (wx : FetchResult (List (String × MarketInfo))) (net : String → DetailResp)
    (h : api_key_invalid cfg.api_key = true) :
    (analyze_prices cfg cc wx net).countP isDetailCall = 0 ∧
    (∀ symbol, (get_wallex_last_trade_price cfg.api_key net symbol).1 = []) ∧
    ((get_coincatch_prices cc).2.isEmpty = false →
     (get_wallex_usdt_markets wx).2.isEmpty = false →
      analyze_prices cfg cc wx net =
        (get_coincatch_prices cc).1 ++ (get_wallex_usdt_markets wx).1 ++
          [Event.logInfo, Event.logError]) := by
  refine ⟨?_, ?_, ?_⟩
  · simp only [analyze_prices]
    split_ifs with h1
    all_goals
      rw [List.countP_eq_zero]
      intro a ha
      rcases List.mem_append.mp ha with ha1 | ha2
      · rcases List.mem_append.mp ha1 with hb | hb
        · simp [cc_events_no_detail cc a hb]
        · simp [wx_events_no_detail wx a hb]
      · simp at ha2
        first
          | (subst ha2; decide)
          | (rcases ha2 with rfl | rfl <;> decide)
  · intro symbol
    simp [get_wallex_last_trade_price, h]
  · intro h1 h2
    simp [analyze_prices, h1, h2, h]

/-- Witness for C5: with no API key configured, a cycle makes zero detail
calls. -/
theorem c5_witness :
    (analyze_prices ⟨none, 1⟩ FetchResult.failure FetchResult.failure
      (fun _ => DetailResp.fail)).countP isDetailCall = 0 :=
  (c5_no_detail_calls ⟨none, 1⟩ FetchResult.failure FetchResult.failure
    (fun _ => DetailResp.fail) rfl).1

/-- C8: `escape_markdown` leaves every string without reserved characters
unchanged, distributes over concatenation, turns each reserved character into
a backslash followed by that character (exactly one escape marker), and on
the string of all reserved characters produces exactly the interleaved
escaped string. -/
theorem c8_escape :
    (∀ s : String, (∀ c ∈ s.toList, c ∉ escape_chars.toList) → escape_markdown s = s) ∧
    (∀ s t : String, escape_markdown (s ++ t) = escape_markdown s ++ escape_markdown t) ∧
    (∀ c : Char, c ∈ escape_chars.toList →
      escape_markdown (String.mk [c]) = String.mk ['\\', c]) ∧
    escape_markdown escape_chars =
      "\\_\\*\\[\\]\\(\\)\\~\\`\\>\\#\\+\\-\\=\\|\\\x7b\\\x7d\\.\\!" := by
  refine ⟨?_, ?_, ?_, by decide⟩
  · intro s h
    have hl : ∀ l : List Char, (∀ c ∈ l, c ∉ escape_chars.toList) →
        l.flatMap (fun c => if c ∈ escape_chars.toList then ['\\', c] else [c]) = l := by
      intro l hl
      induction l with
      | nil => rfl
      | cons hd tl ih =>
        rw [List.flatMap_cons, if_neg (hl hd (by simp)), ih (fun c hc => hl c (by simp [hc]))]
        rfl
    show String.mk _ = s
    rw [hl s.toList h]
    rfl
  · intro s t
    show String.mk _ = String.mk _ ++ String.mk _
    rw [show (s ++ t).toList = s.toList ++ t.toList from rfl, List.flatMap_append]
    rfl
  · intro c hc
    show String.mk _ = _
    rw [show (String.mk [c]).toList = [c] from rfl, List.flatMap_cons, if_pos hc]
    rfl

/-- Witness for C8: a string with no reserved characters is unchanged. -/
theorem c8_witness : escape_markdown "hello" = "hello" :=
  c8_escape.1 "hello" (by decide)

/-- C9: on transport failure both full-market fetches log an error and
return the empty mapping, and a parse failure inside the CoinCatch ticker
comprehension does the same - no exception escapes either function. -/
theorem c9_defensive :
    get_wallex_usdt_markets FetchResult.failure = ([Event.logError], []) ∧
    get_coincatch_prices FetchResult.failure = ([Event.logError], []) ∧
    (∀ data : List Ticker, parseAllTickers data = none →
      get_coincatch_prices (FetchResult.ok data) = ([Event.logError], [])) := by
  refine ⟨rfl, rfl, ?_⟩
  intro data h
  simp [get_coincatch_prices, h]

/-- Witness for C9: a ticker list whose single entry has no price is a
parse failure, so the fetch logs an error and returns the empty mapping. -/
theorem c9_witness :
    get_coincatch_prices (FetchResult.ok [⟨none, none⟩]) = ([Event.logError], []) :=
  c9_defensive.2.2 _ rfl

/-- C10: with an empty bot token the notifier returns immediately with no
delivery attempt and no log; with a nonempty token a raising delivery is
caught and logged as an error, and a successful one sends the message -
nothing propagates to the caller. -/
theorem c10_notifier (cfg : TelegramConfig) (msg : String) (outcome : SendOutcome) :
    (cfg.bot_token = "" → send_telegram_message cfg msg outcome = []) ∧
    (cfg.bot_token ≠ "" → outcome = SendOutcome.raises →
      send_telegram_message cfg msg outcome = [Event.logError]) ∧
    (cfg.bot_token ≠ "" → outcome = SendOutcome.ok →
      send_telegram_message cfg msg outcome = [Event.telegramSend msg]) := by
  refine ⟨?_, ?_, ?_⟩
  · intro h
    simp [send_telegram_message, h]
  · intro h ho
    simp [send_telegram_message, h, ho]
  · intro h ho
    simp [send_telegram_message, h, ho]

/-- Witness for C10: an empty token produces no events at all. -/
theorem c10_witness : send_telegram_message ⟨"", "c", "t"⟩ "m" SendOutcome.ok = [] :=
  (c10_notifier ⟨"", "c", "t"⟩ "m" SendOutcome.ok).1 rfl

end PriceWord
